import Mathlib

/-!
Shallow embedding of `src/pdfquicktext/writer.py` (package `pdfquicktext`,
class `PDFFactory`), the content-stream text-placement engine.

Modelling conventions:
* Python floats are modelled by `ℚ` (all arithmetic in the source is
  `*`, `-`, `/` on decimal constants, so no rounding behaviour is involved).
* The pikepdf collaborator is modelled per the design contract: a page
  exposes an optional media box, its font resource dictionary as a mapping
  (possibly empty) from resource names to font objects, and its content
  stream as a decoded list of (operands, operator) instructions;
  `parse_content_stream` / `unparse_content_stream` move between the page's
  stored contents and the in-memory instruction list.
* Python exceptions are modelled by `Except PyError`; since an exception
  leaves prior attribute assignments in place, every stateful method returns
  `Except PyError α × PDFFactory` where the second component is the factory
  state at the moment the method returned or raised.
* `self.page_object` aliases `self.pdf_object.pages[self._current_page]` in
  Python; mutation of the open page is modelled by `setPage`, which writes
  the updated page through to both fields.
-/

deriving instance DecidableEq for Except

namespace PDFQuickText

/-- The `BaseFont` enum: the 14 standard PDF base fonts (writer.py lines 8-22). -/
inductive BaseFont where
  | courier
  | courierbold
  | courierboldoblique
  | courieroblique
  | helvetica
  | helveticabold
  | helveticaboldoblique
  | helveticaoblique
  | timesroman
  | timesbold
  | timesitalic
  | timesbolditalic
  | symbol
  | zapfdingbats
deriving DecidableEq

/-- The value `BaseFont.value`: the PostScript name of each enum member. -/
def BaseFont.value : BaseFont → String
  | .courier => "/Courier"
  | .courierbold => "/Courier-Bold"
  | .courierboldoblique => "/Courier-BoldOblique"
  | .courieroblique => "/Courier-Oblique"
  | .helvetica => "/Helvetica"
  | .helveticabold => "/Helvetica-Bold"
  | .helveticaboldoblique => "/Helvetica-BoldOblique"
  | .helveticaoblique => "/Helvetica-Oblique"
  | .timesroman => "/Times-Roman"
  | .timesbold => "/Times-Bold"
  | .timesitalic => "/Times-Italic"
  | .timesbolditalic => "/Times-BoldItalic"
  | .symbol => "/Symbol"
  | .zapfdingbats => "/ZapfDingbats"

/-- Enum lookup `BaseFont[key]`: lookup of an enum member by its Python name
(raises `KeyError` in Python when absent, modelled by `none`). -/
def BaseFont.ofKey : String → Option BaseFont
  | "courier" => some .courier
  | "courierbold" => some .courierbold
  | "courierboldoblique" => some .courierboldoblique
  | "courieroblique" => some .courieroblique
  | "helvetica" => some .helvetica
  | "helveticabold" => some .helveticabold
  | "helveticaboldoblique" => some .helveticaboldoblique
  | "helveticaoblique" => some .helveticaoblique
  | "timesroman" => some .timesroman
  | "timesbold" => some .timesbold
  | "timesitalic" => some .timesitalic
  | "timesbolditalic" => some .timesbolditalic
  | "symbol" => some .symbol
  | "zapfdingbats" => some .zapfdingbats
  | _ => none

/-- The exceptions the source can raise, one constructor per distinct raise
site / Python exception class:
* `keyErrorUnknownFont s` — `KeyError(f'{font!r} is not a BaseFont enum key')`
  re-raised in `_add_font` (lines 49-52); carries the offending key.
* `pageAlreadyOpenError` — `PDFQuickTextError('A page is already open and
  must be closed prior to opening a new page.')` in `_open_page`.
* `noPageOpenError` — `PDFQuickTextError('A page must be opened prior to
  this operation.')` in `_assert_page_is_open`.
* `indexError` — Python `IndexError` from `self.pdf_object.pages[page_ix]`.
* `typeError` — Python `TypeError` from passing `None` where a sequence is
  required (`unparse_content_stream(None)`, iterating `None`).
* `attributeError name` — Python `AttributeError` from reading the
  never-assigned attribute `name` on `self`.
* `pdfError` — the collaborator parser rejecting the input bytes. -/
inductive PyError where
  | keyErrorUnknownFont : String → PyError
  | pageAlreadyOpenError : PyError
  | noPageOpenError : PyError
  | indexError : PyError
  | typeError : PyError
  | attributeError : String → PyError
  | pdfError : PyError
deriving DecidableEq

/-- A content-stream operand value (`pikepdf` object):
a name like `/Times-Roman`, a number, a string literal, or the null
object (the image of Python `None`). -/
inductive Operand where
  | name : String → Operand
  | num : ℚ → Operand
  | str : String → Operand
  | null : Operand
deriving DecidableEq

/-- A content-stream instruction: an (operands, operator) record
(`pikepdf.ContentStreamInstruction`). -/
structure Instruction where
  operands : List Operand
  operator : String
deriving DecidableEq

/-- The indirect font-descriptor dictionary built in `_add_font`
(lines 58-62): `Type = /Font`, `Subtype = /Type1`, `BaseFont = <name>`. -/
structure FontDict where
  type : String
  subtype : String
  baseFont : String
deriving DecidableEq

/-- A document page as exposed by the collaborator: an optional `/MediaBox`,
the `/Font` entry of the resource dictionary as an association list from
resource names to font objects, and the decoded content stream. -/
structure Page where
  mediaBox : Option (ℚ × ℚ × ℚ × ℚ)
  fontResources : List (String × FontDict)
  contents : List Instruction
deriving DecidableEq

/-- The parsed document (`pikepdf.Pdf`): its page list. -/
structure PDFDocument where
  pages : List Page
deriving DecidableEq

/-- The `PDFFactory` instance state: the attributes assigned by `__init__`
(lines 32-37).  `current_page` is the `_current_page` attribute (the
`current_page` property returns it unchanged), `page_instructions` is
`_page_instructions`. -/
structure PDFFactory where
  pdf_bytes : List Nat
  pdf_object : PDFDocument
  page_object : Option Page
  current_page : Option Nat
  page_instructions : Option (List Instruction)
deriving DecidableEq

/-- The constant `PDFFactory.DPI = 72` (line 30). -/
def DPI : ℚ := 72

/-- Python attribute lookup on `self`: returns the stored value or raises
`AttributeError` naming the missing attribute. -/
def attributeLookup (assigned : List (String × List Nat)) (name : String) :
    Except PyError (List Nat) :=
  match assigned.lookup name with
  | some v => Except.ok v
  | none => Except.error (PyError.attributeError name)

/-- The constructor `PDFFactory.__init__(pdf_bytes)` (lines 32-37).  Line 33 assigns
`self.pdf_bytes = pdf_bytes`; line 34 evaluates
`pikepdf.open(BytesIO(self.pdf_path))`, which begins with an attribute
lookup of `pdf_path` on `self` — an attribute no line of the class ever
assigns.  `parse_pdf` models the collaborator parser `pikepdf.open`
(`none` = the parser rejects the bytes). -/
def PDFFactory.init (parse_pdf : List Nat → Option PDFDocument)
    (pdf_bytes : List Nat) : Except PyError PDFFactory :=
  let assigned := [("pdf_bytes", pdf_bytes)]
  match attributeLookup assigned "pdf_path" with
  | Except.error e => Except.error e
  | Except.ok bs =>
    match parse_pdf bs with
    | none => Except.error PyError.pdfError
    | some doc =>
      Except.ok
        { pdf_bytes := pdf_bytes
          pdf_object := doc
          page_object := none
          current_page := none
          page_instructions := none }

/-- Write an updated open-page object through to both `page_object` and the
aliased entry of `pdf_object.pages` (Python mutates one shared object). -/
def PDFFactory.setPage (f : PDFFactory) (p : Page) : PDFFactory :=
  { f with
    page_object := some p
    pdf_object :=
      ⟨match f.current_page with
       | some ix => f.pdf_object.pages.set ix p
       | none => f.pdf_object.pages⟩ }

/-- Method `PDFFactory._assert_page_is_open` (lines 95-100): raises `NoPageOpen`
when `self.page_object is None`. -/
def PDFFactory.assert_page_is_open (f : PDFFactory) : Except PyError Unit :=
  match f.page_object with
  | none => Except.error PyError.noPageOpenError
  | some _ => Except.ok ()

/-- Method `PDFFactory._add_font(font)` (lines 43-66) with a string key:
asserts a page is open, resolves the key through the `BaseFont` enum
(re-raising `KeyError` naming the input on a miss), and then:
if `/Name` is already a key of the page's font resources, executes the bare
`return` on line 56 (value `None`, modelled `none`); otherwise builds the
font dictionary and registers it under the font's canonical name, returning
that name. -/
def PDFFactory.add_font (f : PDFFactory) (font : String) :
    Except PyError (Option String) × PDFFactory :=
  match f.page_object with
  | none => (Except.error PyError.noPageOpenError, f)
  | some page =>
    match BaseFont.ofKey font with
    | none => (Except.error (PyError.keyErrorUnknownFont font), f)
    | some bf =>
      let pdf_font := bf.value
      if (page.fontResources.map Prod.fst).contains pdf_font then
        (Except.ok none, f)
      else
        let font_dict : FontDict := ⟨"/Font", "/Type1", pdf_font⟩
        let page' :=
          { page with fontResources := page.fontResources ++ [(pdf_font, font_dict)] }
        (Except.ok (some pdf_font), f.setPage page')

/-- Method `PDFFactory._open_page(page_ix)` (lines 68-82): raises
`PageAlreadyOpen` when `self.current_page is not None`; otherwise assigns
`self._current_page = page_ix` FIRST, and only then indexes
`self.pdf_object.pages[page_ix]` (which raises `IndexError` out of range,
leaving `_current_page` assigned) and decodes the content stream. -/
def PDFFactory.open_page (f : PDFFactory) (page_ix : Nat) :
    Except PyError Unit × PDFFactory :=
  match f.current_page with
  | some _ => (Except.error PyError.pageAlreadyOpenError, f)
  | none =>
    let f1 := { f with current_page := some page_ix }
    match f1.pdf_object.pages[page_ix]? with
    | none => (Except.error PyError.indexError, f1)
    | some page =>
      (Except.ok (),
        { f1 with page_object := some page, page_instructions := some page.contents })

/-- Method `PDFFactory._close_page` (lines 84-93): asserts a page is open,
re-encodes `_page_instructions` into `page_object.Contents`, then resets
`_current_page`, `_page_instructions` and `page_object` to `None`. -/
def PDFFactory.close_page (f : PDFFactory) : Except PyError Unit × PDFFactory :=
  match f.page_object with
  | none => (Except.error PyError.noPageOpenError, f)
  | some page =>
    match f.page_instructions with
    | none => (Except.error PyError.typeError, f)
    | some instrs =>
      let f1 := f.setPage { page with contents := instrs }
      (Except.ok (),
        { f1 with page_object := none, current_page := none, page_instructions := none })

/-- The operand produced from `_add_font`'s return value when it is placed
in the `Tf` instruction: a name object, or the null object when `_add_font`
returned `None`. -/
def operandOfFontReturn : Option String → Operand
  | some s => Operand.name s
  | none => Operand.null

/-- Method `PDFFactory._make_text_instructions(text, x, y, size, font)`
(lines 102-124): registers the font, then builds the five-instruction block
`BT`, `Tf [font, size]`, `Tm [1,0,0,1,x,y]`, `Tj [text]`, `ET`. -/
def PDFFactory.make_text_instructions (f : PDFFactory) (text : String)
    (x y size : ℚ) (font : String) :
    Except PyError (List Instruction) × PDFFactory :=
  match f.add_font font with
  | (Except.error e, f1) => (Except.error e, f1)
  | (Except.ok pdf_font, f1) =>
    (Except.ok
      [⟨[], "BT"⟩,
       ⟨[operandOfFontReturn pdf_font, Operand.num size], "Tf"⟩,
       ⟨[Operand.num 1, Operand.num 0, Operand.num 0, Operand.num 1,
         Operand.num x, Operand.num y], "Tm"⟩,
       ⟨[Operand.str text], "Tj"⟩,
       ⟨[], "ET"⟩], f1)

/-- The scan loop of `_insert_new_instructions` (lines 131-134):
`insert_index` starts at 0 and is overwritten with `i` at every instruction
whose operator is `ET`, so the loop ends with the index OF the last `ET`
(0 when there is none).  `acc` is `insert_index`, `i` the running index. -/
def insertIndexAux (acc i : Nat) : List Instruction → Nat
  | [] => acc
  | ins :: rest => insertIndexAux (if ins.operator = "ET" then i else acc) (i + 1) rest

/-- The value `insert_index` as computed by `_insert_new_instructions` for a given
instruction list. -/
def insertIndex (instrs : List Instruction) : Nat := insertIndexAux 0 0 instrs

/-- Method `PDFFactory._insert_new_instructions(new)` (lines 126-139): rebuilds
`_page_instructions` as `[:insert_index] ++ new ++ [insert_index:]`.
Iterating `_page_instructions` while it is `None` raises `TypeError`. -/
def PDFFactory.insert_new_instructions (f : PDFFactory)
    (new : List Instruction) : Except PyError Unit × PDFFactory :=
  match f.page_instructions with
  | none => (Except.error PyError.typeError, f)
  | some instrs =>
    let idx := insertIndex instrs
    (Except.ok (),
      { f with page_instructions := some (instrs.take idx ++ new ++ instrs.drop idx) })

/-- Method `PDFFactory._add_text_xy_points(text, x, y, size, font)`
(lines 141-154): synthesize the block, then splice it in. -/
def PDFFactory.add_text_xy_points (f : PDFFactory) (text : String)
    (x y size : ℚ) (font : String) : Except PyError Unit × PDFFactory :=
  match f.make_text_instructions text x y size font with
  | (Except.error e, f1) => (Except.error e, f1)
  | (Except.ok instrs, f1) => f1.insert_new_instructions instrs

/-- Method `PDFFactory.get_page_dimension` (lines 189-199): asserts a page is
open; returns the page's literal `/MediaBox` values, or `(0, 0, 612, 792)`
(US Letter) when the page declares no media box. -/
def PDFFactory.get_page_dimension (f : PDFFactory) :
    Except PyError (ℚ × ℚ × ℚ × ℚ) :=
  match f.page_object with
  | none => Except.error PyError.noPageOpenError
  | some page =>
    match page.mediaBox with
    | some mb => Except.ok mb
    | none => Except.ok (0, 0, 612, 792)

/-- Method `PDFFactory.add_text(text, inches_from_left, inches_from_top, size,
font)` (lines 156-171): reads `y_top` from the page dimensions, computes
`x = DPI * inches_from_left`, `y = y_top - DPI * inches_from_top`, and
places the text block. -/
def PDFFactory.add_text (f : PDFFactory) (text : String)
    (inches_from_left inches_from_top size : ℚ) (font : String) :
    Except PyError Unit × PDFFactory :=
  match f.get_page_dimension with
  | Except.error e => (Except.error e, f)
  | Except.ok (_, _, _, y_top) =>
    let x := DPI * inches_from_left
    let y := y_top - DPI * inches_from_top
    f.add_text_xy_points text x y size font

/-- Method `PDFFactory.add_text_cm(text, cm_from_left, cm_from_top, size, font)`
(lines 173-187): computes `inches_from_left = 2.54 * cm_from_left` and
`inches_from_top = 2.54 * cm_from_top`, then delegates to `add_text`. -/
def PDFFactory.add_text_cm (f : PDFFactory) (text : String)
    (cm_from_left cm_from_top size : ℚ) (font : String) :
    Except PyError Unit × PDFFactory :=
  let inches_from_left := (2.54 : ℚ) * cm_from_left
  let inches_from_top := (2.54 : ℚ) * cm_from_top
  f.add_text text inches_from_left inches_from_top size font

/-- A factory in the no-page-open state over document `doc`: the field
values `__init__` (lines 35-37) assigns. -/
def closedFactory (doc : PDFDocument) : PDFFactory :=
  { pdf_bytes := []
    pdf_object := doc
    page_object := none
    current_page := none
    page_instructions := none }

/-- A factory whose single page `page` is open at index 0 (the state
reached by `closedFactory` followed by `_open_page(0)`). -/
def openFactory (page : Page) : PDFFactory :=
  { pdf_bytes := []
    pdf_object := ⟨[page]⟩
    page_object := some page
    current_page := some 0
    page_instructions := some page.contents }

/-- A fresh US-Letter page: explicit media box `(0, 0, 612, 792)`, empty
font resources, empty content stream. -/
def letterPage : Page := ⟨some (0, 0, 612, 792), [], []⟩

/-- The page `letterPage` opened at index 0. -/
def letterF : PDFFactory := openFactory letterPage

/-- An open page whose existing content stream is one complete text object
`BT … ET` (here just the two delimiters, the minimal stream containing an
`ET`). -/
def c1Existing : List Instruction := [⟨[], "BT"⟩, ⟨[], "ET"⟩]

/-- The stream `c1Existing` opened as the current page's instruction sequence. -/
def c1State : PDFFactory := openFactory ⟨some (0, 0, 612, 792), [], c1Existing⟩

/-- A five-instruction text block of the shape `_make_text_instructions`
synthesizes. -/
def c1Block : List Instruction :=
  [⟨[], "BT"⟩,
   ⟨[Operand.name "/Times-Roman", Operand.num 11], "Tf"⟩,
   ⟨[Operand.num 1, Operand.num 0, Operand.num 0, Operand.num 1,
     Operand.num 72, Operand.num 720], "Tm"⟩,
   ⟨[Operand.str "Hello"], "Tj"⟩,
   ⟨[], "ET"⟩]

/-- C1: on the sequence `[BT, ET]`, whose last `ET` is at index 1, the code
splices the new block starting AT index 1 — between `BT` and `ET`, i.e.
BEFORE the last `ET` — and not at index 2 (one past the last `ET`) as the
claim states.  The loop in `_insert_new_instructions` records the index OF
the last `ET` and the splice `[:insert_index] ++ new ++ [insert_index:]`
places the block before that instruction, contradicting the method's own
docstring ("after the last ENDTEXT command"). -/
theorem C1_block_goes_before_last_ET :
    (c1State.insert_new_instructions c1Block).snd.page_instructions =
      some ([⟨[], "BT"⟩] ++ c1Block ++ [⟨[], "ET"⟩]) ∧
    (c1State.insert_new_instructions c1Block).snd.page_instructions ≠
      some ([⟨[], "BT"⟩, ⟨[], "ET"⟩] ++ c1Block) := by decide

/-- C2: from the same open-page state, `add_text_cm(text, 1, 1, …)`
coincides with `add_text(text, 2.54, 2.54, …)` — the code MULTIPLIES the
centimeter inputs by 2.54 — and differs from `add_text(text, 1/2.54,
1/2.54, …)`, the division the claim states. -/
theorem C2_cm_conversion_multiplies :
    letterF.add_text_cm "A" 1 1 11 "timesroman" =
      letterF.add_text "A" (2.54 : ℚ) (2.54 : ℚ) 11 "timesroman" ∧
    letterF.add_text_cm "A" 1 1 11 "timesroman" ≠
      letterF.add_text "A" (1 / (2.54 : ℚ)) (1 / (2.54 : ℚ)) 11 "timesroman" := by
  constructor <;>
    norm_num [PDFFactory.add_text_cm, PDFFactory.add_text,
      PDFFactory.get_page_dimension, letterF, letterPage, openFactory,
      PDFFactory.add_text_xy_points, PDFFactory.make_text_instructions,
      PDFFactory.add_font, BaseFont.ofKey, BaseFont.value, PDFFactory.setPage,
      PDFFactory.insert_new_instructions, insertIndex, insertIndexAux,
      operandOfFontReturn, DPI, Prod.ext_iff]

/-- C3: for every input the collaborator parser accepts, the constructor
still raises `AttributeError('pdf_path')`: line 34 reads `self.pdf_path`,
but the only attribute assigned before that point is `pdf_bytes`, so
construction never succeeds. -/
theorem C3_init_always_raises (parse_pdf : List Nat → Option PDFDocument)
    (bs : List Nat) (doc : PDFDocument) (h : parse_pdf bs = some doc) :
    PDFFactory.init parse_pdf bs =
      Except.error (PyError.attributeError "pdf_path") := rfl

theorem C3_init_always_raises_witness :
    (fun _ : List Nat => some (⟨[]⟩ : PDFDocument)) [] =
      some (⟨[]⟩ : PDFDocument) ∧
    PDFFactory.init (fun _ : List Nat => some (⟨[]⟩ : PDFDocument)) [] =
      Except.error (PyError.attributeError "pdf_path") :=
  ⟨rfl, C3_init_always_raises (fun _ => some ⟨[]⟩) [] ⟨[]⟩ rfl⟩

/-- The state after a first `_add_font('timesroman')` on a fresh open
US-Letter page. -/
def c4F1 : PDFFactory := (letterF.add_font "timesroman").snd

/-- C4: the first `_add_font('timesroman')` call returns the resource name
`/Times-Roman`, and the second call performs no mutation and leaves exactly
one resource entry — but returns `None` (the bare `return` on line 56), not
the existing name, so the two calls do NOT return the same name. -/
theorem C4_second_call_returns_none :
    (letterF.add_font "timesroman").fst = Except.ok (some "/Times-Roman") ∧
    c4F1.add_font "timesroman" = (Except.ok none, c4F1) ∧
    c4F1.page_object.map (fun p => p.fontResources.length) = some 1 := by decide

/-- The one-page document holding a fresh US-Letter page. -/
def c6Doc : PDFDocument := ⟨[letterPage]⟩

/-- C6: after opening the fresh US-Letter page and calling
`add_text("Hello", 1.0, 1.0, 11.0, "timesroman")`, the page's instruction
sequence is exactly `BT`, `Tf [/Times-Roman, 11]`,
`Tm [1, 0, 0, 1, 72, 720]`, `Tj ["Hello"]`, `ET`, with `x = 72 * 1` and
`y = 792 - 72 * 1 = 720`. -/
theorem C6_hello_block :
    ((((closedFactory c6Doc).open_page 0).snd).add_text
        "Hello" 1 1 11 "timesroman").snd.page_instructions =
      some [⟨[], "BT"⟩,
            ⟨[Operand.name "/Times-Roman", Operand.num 11], "Tf"⟩,
            ⟨[Operand.num 1, Operand.num 0, Operand.num 0, Operand.num 1,
              Operand.num 72, Operand.num 720], "Tm"⟩,
            ⟨[Operand.str "Hello"], "Tj"⟩,
            ⟨[], "ET"⟩] := by
  norm_num [closedFactory, c6Doc, PDFFactory.open_page, letterPage,
    PDFFactory.add_text, PDFFactory.get_page_dimension,
    PDFFactory.add_text_xy_points, PDFFactory.make_text_instructions,
    PDFFactory.add_font, BaseFont.ofKey, BaseFont.value, PDFFactory.setPage,
    PDFFactory.insert_new_instructions, insertIndex, insertIndexAux,
    operandOfFontReturn, DPI]

/-- C5: with a page open, `_add_font` on a key that is not a `BaseFont`
enum member fails with the `KeyError` naming the invalid input, and so does
`add_text` with that key; in both cases the factory — page resource table
and instruction sequence included — is returned unchanged. -/
theorem C5_unknown_font_atomic_failure (f : PDFFactory) (p : Page)
    (hopen : f.page_object = some p) (key : String)
    (hkey : BaseFont.ofKey key = none) (text : String) (l t size : ℚ) :
    f.add_font key = (Except.error (PyError.keyErrorUnknownFont key), f) ∧
    f.add_text text l t size key =
      (Except.error (PyError.keyErrorUnknownFont key), f) := by
  have hfont : f.add_font key =
      (Except.error (PyError.keyErrorUnknownFont key), f) := by
    simp [PDFFactory.add_font, hopen, hkey]
  refine ⟨hfont, ?_⟩
  obtain ⟨mb, hmb⟩ : ∃ mb, f.get_page_dimension = Except.ok mb := by
    cases hm : p.mediaBox <;>
      simp [PDFFactory.get_page_dimension, hopen, hm]
  obtain ⟨a, b, c, d⟩ := mb
  simp [PDFFactory.add_text, hmb, PDFFactory.add_text_xy_points,
    PDFFactory.make_text_instructions, hfont]

theorem C5_unknown_font_atomic_failure_witness :
    BaseFont.ofKey "comicsans" = none ∧
    letterF.add_font "comicsans" =
      (Except.error (PyError.keyErrorUnknownFont "comicsans"), letterF) ∧
    letterF.add_text "A" 1 1 11 "comicsans" =
      (Except.error (PyError.keyErrorUnknownFont "comicsans"), letterF) :=
  ⟨rfl,
   C5_unknown_font_atomic_failure letterF letterPage rfl "comicsans" rfl "A" 1 1 11⟩

/-- C7: while `page_object` is `None`, each of `add_text`, `add_text_cm`,
`_add_font`, `get_page_dimension` and `_close_page` fails with the
`NoPageOpen` error, and the stateful ones return the factory unchanged. -/
theorem C7_ops_require_open_page (f : PDFFactory) (h : f.page_object = none)
    (text : String) (a b size : ℚ) (font : String) :
    f.add_text text a b size font = (Except.error PyError.noPageOpenError, f) ∧
    f.add_text_cm text a b size font = (Except.error PyError.noPageOpenError, f) ∧
    f.add_font font = (Except.error PyError.noPageOpenError, f) ∧
    f.get_page_dimension = Except.error PyError.noPageOpenError ∧
    f.close_page = (Except.error PyError.noPageOpenError, f) := by
  have hdim : f.get_page_dimension = Except.error PyError.noPageOpenError := by
    simp [PDFFactory.get_page_dimension, h]
  have htext : ∀ (t : String) (a' b' s : ℚ) (fo : String),
      f.add_text t a' b' s fo = (Except.error PyError.noPageOpenError, f) := by
    intro t a' b' s fo
    simp [PDFFactory.add_text, hdim]
  exact ⟨htext text a b size font,
    by simp [PDFFactory.add_text_cm, htext],
    by simp [PDFFactory.add_font, h],
    hdim,
    by simp [PDFFactory.close_page, h]⟩

/-- The no-page-open factory over the empty document. -/
def c7F : PDFFactory := closedFactory ⟨[]⟩

theorem C7_ops_require_open_page_witness :
    c7F.page_object = none ∧
    (c7F.add_text "A" 1 1 11 "timesroman" =
        (Except.error PyError.noPageOpenError, c7F) ∧
      c7F.add_text_cm "A" 1 1 11 "timesroman" =
        (Except.error PyError.noPageOpenError, c7F) ∧
      c7F.add_font "timesroman" = (Except.error PyError.noPageOpenError, c7F) ∧
      c7F.get_page_dimension = Except.error PyError.noPageOpenError ∧
      c7F.close_page = (Except.error PyError.noPageOpenError, c7F)) :=
  ⟨rfl, C7_ops_require_open_page c7F rfl "A" 1 1 11 "timesroman"⟩

/-- C8: while a page is open (`_current_page` set, page object and
instruction sequence loaded), `_open_page` with any index fails with the
`PageAlreadyOpen` error and returns the factory — open page, index and
instruction sequence included — unchanged. -/
theorem C8_open_page_while_open (f : PDFFactory) (p : Page) (j : Nat)
    (hp : f.page_object = some p) (hj : f.current_page = some j) (ix : Nat) :
    f.open_page ix = (Except.error PyError.pageAlreadyOpenError, f) := by
  simp [PDFFactory.open_page, hj]

theorem C8_open_page_while_open_witness :
    letterF.page_object = some letterPage ∧
    letterF.current_page = some 0 ∧
    letterF.open_page 0 = (Except.error PyError.pageAlreadyOpenError, letterF) :=
  ⟨rfl, rfl, C8_open_page_while_open letterF letterPage 0 rfl rfl 0⟩

/-- C9: with a page open, `get_page_dimension` returns the page's literal
media-box 4-tuple when one is declared, and `(0, 0, 612, 792)` when the
page declares no media box. -/
theorem C9_page_dimensions (f : PDFFactory) (p : Page)
    (h : f.page_object = some p) :
    (∀ mb, p.mediaBox = some mb → f.get_page_dimension = Except.ok mb) ∧
    (p.mediaBox = none → f.get_page_dimension = Except.ok (0, 0, 612, 792)) := by
  constructor
  · intro mb hmb
    simp [PDFFactory.get_page_dimension, h, hmb]
  · intro hmb
    simp [PDFFactory.get_page_dimension, h, hmb]

/-- A page declaring the (arbitrary) media box `(1, 2, 3, 4)`. -/
def c9Page : Page := ⟨some (1, 2, 3, 4), [], []⟩

/-- A page declaring no media box. -/
def c9PageNoMB : Page := ⟨none, [], []⟩

theorem C9_page_dimensions_witness :
    (openFactory c9Page).get_page_dimension = Except.ok (1, 2, 3, 4) ∧
    (openFactory c9PageNoMB).get_page_dimension = Except.ok (0, 0, 612, 792) :=
  ⟨(C9_page_dimensions (openFactory c9Page) c9Page rfl).1 (1, 2, 3, 4) rfl,
   (C9_page_dimensions (openFactory c9PageNoMB) c9PageNoMB rfl).2 rfl⟩

/-- The session-coherence property of claim C10: `_current_page`,
`page_object` and `_page_instructions` are all `None`, or all non-`None`. -/
def Coherent (f : PDFFactory) : Prop :=
  (f.current_page = none ∧ f.page_object = none ∧ f.page_instructions = none) ∨
  (f.current_page ≠ none ∧ f.page_object ≠ none ∧ f.page_instructions ≠ none)

instance (f : PDFFactory) : Decidable (Coherent f) := by
  unfold Coherent
  infer_instance

/-- One operation of the session, relating a factory state to the state it
leaves behind (whether the call returned or raised): `_open_page` with any
index, `_close_page`, `_add_font`, `add_text`, `add_text_cm`. -/
inductive Step : PDFFactory → PDFFactory → Prop where
  | open_page (f : PDFFactory) (ix : Nat) : Step f (f.open_page ix).snd
  | close_page (f : PDFFactory) : Step f f.close_page.snd
  | add_font (f : PDFFactory) (font : String) : Step f (f.add_font font).snd
  | add_text (f : PDFFactory) (text : String) (a b size : ℚ) (font : String) :
      Step f (f.add_text text a b size font).snd
  | add_text_cm (f : PDFFactory) (text : String) (a b size : ℚ)
      (font : String) : Step f (f.add_text_cm text a b size font).snd

/-- States reachable from the freshly-constructed session over `doc` (the
field values `__init__` lines 35-37 assign) by any operation sequence. -/
inductive Reachable (doc : PDFDocument) : PDFFactory → Prop where
  | init : Reachable doc (closedFactory doc)
  | step {f g : PDFFactory} : Reachable doc f → Step f g → Reachable doc g

/-- Like `Step`, but `_open_page` is only invoked with an index inside the
document's page range. -/
inductive SafeStep : PDFFactory → PDFFactory → Prop where
  | open_page (f : PDFFactory) (ix : Nat)
      (hix : ix < f.pdf_object.pages.length) : SafeStep f (f.open_page ix).snd
  | close_page (f : PDFFactory) : SafeStep f f.close_page.snd
  | add_font (f : PDFFactory) (font : String) : SafeStep f (f.add_font font).snd
  | add_text (f : PDFFactory) (text : String) (a b size : ℚ) (font : String) :
      SafeStep f (f.add_text text a b size font).snd
  | add_text_cm (f : PDFFactory) (text : String) (a b size : ℚ)
      (font : String) : SafeStep f (f.add_text_cm text a b size font).snd

/-- States reachable when every `_open_page` call uses an in-range index. -/
inductive SafeReachable (doc : PDFDocument) : PDFFactory → Prop where
  | init : SafeReachable doc (closedFactory doc)
  | step {f g : PDFFactory} :
      SafeReachable doc f → SafeStep f g → SafeReachable doc g

lemma coherent_closedFactory (doc : PDFDocument) :
    Coherent (closedFactory doc) := Or.inl ⟨rfl, rfl, rfl⟩

lemma open_page_closed_eq {f : PDFFactory} (h1 : f.current_page = none)
    {ix : Nat} (hix : ix < f.pdf_object.pages.length) :
    f.open_page ix =
      (Except.ok (),
        { f with
          current_page := some ix
          page_object := some f.pdf_object.pages[ix]
          page_instructions := some (f.pdf_object.pages[ix]).contents }) := by
  simp [PDFFactory.open_page, h1, List.getElem?_eq_getElem hix]

lemma coherent_open_page {f : PDFFactory} (h : Coherent f) {ix : Nat}
    (hix : ix < f.pdf_object.pages.length) : Coherent (f.open_page ix).snd := by
  rcases h with ⟨h1, h2, h3⟩ | ⟨h1, h2, h3⟩
  · rw [open_page_closed_eq h1 hix]
    exact Or.inr ⟨by simp, by simp, by simp⟩
  · obtain ⟨c, hc⟩ := Option.ne_none_iff_exists'.mp h1
    have heq : f.open_page ix = (Except.error PyError.pageAlreadyOpenError, f) := by
      simp [PDFFactory.open_page, hc]
    rw [heq]
    exact Or.inr ⟨h1, h2, h3⟩

lemma coherent_close_page {f : PDFFactory} (h : Coherent f) :
    Coherent f.close_page.snd := by
  rcases h with ⟨h1, h2, h3⟩ | ⟨h1, h2, h3⟩
  · have heq : f.close_page = (Except.error PyError.noPageOpenError, f) := by
      simp [PDFFactory.close_page, h2]
    rw [heq]
    exact Or.inl ⟨h1, h2, h3⟩
  · obtain ⟨p, hp⟩ := Option.ne_none_iff_exists'.mp h2
    obtain ⟨ins, hins⟩ := Option.ne_none_iff_exists'.mp h3
    have heq : f.close_page.snd =
        { f.setPage { p with contents := ins } with
          page_object := none
          current_page := none
          page_instructions := none } := by
      simp [PDFFactory.close_page, hp, hins]
    rw [heq]
    exact Or.inl ⟨rfl, rfl, rfl⟩

lemma coherent_add_font {f : PDFFactory} (h : Coherent f) (font : String) :
    Coherent (f.add_font font).snd := by
  rcases h with ⟨h1, h2, h3⟩ | ⟨h1, h2, h3⟩
  · have heq : (f.add_font font).snd = f := by
      simp [PDFFactory.add_font, h2]
    rw [heq]
    exact Or.inl ⟨h1, h2, h3⟩
  · obtain ⟨p, hp⟩ := Option.ne_none_iff_exists'.mp h2
    rcases hk : BaseFont.ofKey font with _ | bf
    · have heq : (f.add_font font).snd = f := by
        simp [PDFFactory.add_font, hp, hk]
      rw [heq]
      exact Or.inr ⟨h1, h2, h3⟩
    · by_cases hm : (p.fontResources.map Prod.fst).contains bf.value = true
      · have heq : (f.add_font font).snd = f := by
          simp only [PDFFactory.add_font, hp, hk]
          rw [if_pos hm]
        rw [heq]
        exact Or.inr ⟨h1, h2, h3⟩
      · have heq : (f.add_font font).snd =
            f.setPage
              { p with fontResources :=
                  p.fontResources ++ [(bf.value, ⟨"/Font", "/Type1", bf.value⟩)] } := by
          simp only [PDFFactory.add_font, hp, hk]
          rw [if_neg hm]
        rw [heq]
        refine Or.inr ⟨?_, ?_, ?_⟩
        · simpa [PDFFactory.setPage] using h1
        · simp [PDFFactory.setPage]
        · simpa [PDFFactory.setPage] using h3

lemma coherent_insert {f : PDFFactory} (h : Coherent f)
    (new : List Instruction) : Coherent (f.insert_new_instructions new).snd := by
  rcases hpi : f.page_instructions with _ | instrs
  · have heq : (f.insert_new_instructions new).snd = f := by
      simp [PDFFactory.insert_new_instructions, hpi]
    rw [heq]
    exact h
  · have heq : (f.insert_new_instructions new).snd =
        { f with page_instructions := some (instrs.take (insertIndex instrs) ++ new ++ instrs.drop (insertIndex instrs)) } := by
      simp [PDFFactory.insert_new_instructions, hpi]
    rw [heq]
    rcases h with ⟨h1, h2, h3⟩ | ⟨h1, h2, h3⟩
    · rw [hpi] at h3
      cases h3
    · exact Or.inr ⟨by simpa using h1, by simpa using h2, by simp⟩

lemma make_text_instructions_snd (f : PDFFactory) (text : String)
    (x y size : ℚ) (font : String) :
    (f.make_text_instructions text x y size font).snd = (f.add_font font).snd := by
  cases haf : f.add_font font with
  | mk r f1 => cases r <;> simp [PDFFactory.make_text_instructions, haf]

lemma coherent_add_text_xy {f : PDFFactory} (h : Coherent f) (text : String)
    (x y size : ℚ) (font : String) :
    Coherent (f.add_text_xy_points text x y size font).snd := by
  cases hmk : f.make_text_instructions text x y size font with
  | mk r f1 =>
    have hf1 : Coherent f1 := by
      have hsnd := make_text_instructions_snd f text x y size font
      rw [hmk] at hsnd
      simp only [] at hsnd
      rw [show f1 = (f.add_font font).snd from hsnd]
      exact coherent_add_font h font
    cases r with
    | error e =>
      have heq : (f.add_text_xy_points text x y size font).snd = f1 := by
        simp [PDFFactory.add_text_xy_points, hmk]
      rw [heq]
      exact hf1
    | ok instrs =>
      have heq : (f.add_text_xy_points text x y size font).snd =
          (f1.insert_new_instructions instrs).snd := by
        simp [PDFFactory.add_text_xy_points, hmk]
      rw [heq]
      exact coherent_insert hf1 instrs

lemma coherent_add_text {f : PDFFactory} (h : Coherent f) (text : String)
    (a b size : ℚ) (font : String) :
    Coherent (f.add_text text a b size font).snd := by
  cases hd : f.get_page_dimension with
  | error e =>
    have heq : (f.add_text text a b size font).snd = f := by
      simp [PDFFactory.add_text, hd]
    rw [heq]
    exact h
  | ok mb =>
    obtain ⟨x1, y1, x2, y2⟩ := mb
    have heq : (f.add_text text a b size font).snd =
        (f.add_text_xy_points text (DPI * a) (y2 - DPI * b) size font).snd := by
      simp [PDFFactory.add_text, hd]
    rw [heq]
    exact coherent_add_text_xy h text (DPI * a) (y2 - DPI * b) size font

lemma coherent_add_text_cm {f : PDFFactory} (h : Coherent f) (text : String)
    (a b size : ℚ) (font : String) :
    Coherent (f.add_text_cm text a b size font).snd :=
  coherent_add_text h text ((2.54 : ℚ) * a) ((2.54 : ℚ) * b) size font

lemma safeStep_coherent {f g : PDFFactory} (h : Coherent f)
    (s : SafeStep f g) : Coherent g := by
  cases s with
  | open_page ix hix => exact coherent_open_page h hix
  | close_page => exact coherent_close_page h
  | add_font font => exact coherent_add_font h font
  | add_text text a b size font => exact coherent_add_text h text a b size font
  | add_text_cm text a b size font =>
      exact coherent_add_text_cm h text a b size font

/-- The state after `_open_page(1)` on a freshly-constructed session over
the one-page document: the call raised `IndexError`, but only after
assigning `_current_page = 1`. -/
def c10Bad : PDFFactory := ((closedFactory c6Doc).open_page 1).snd

/-- C10 counterexample: `c10Bad` is reached by construction followed by one
`openPage` call, yet `_current_page` is `some 1` while `page_object` and
`_page_instructions` are still `None`: the three fields are neither all
`None` nor all non-`None`, so the claimed invariant fails (and the two
open-checks disagree there: `_open_page` would report `PageAlreadyOpen`
while `_assert_page_is_open` reports `NoPageOpen`). -/
theorem C10_counterexample : Reachable c6Doc c10Bad ∧ ¬ Coherent c10Bad :=
  ⟨Reachable.step Reachable.init (Step.open_page _ 1), by
    intro hc
    rcases hc with ⟨h1, _, _⟩ | ⟨_, h2, _⟩
    · exact Option.noConfusion ((rfl : c10Bad.current_page = some 1) ▸ h1)
    · exact h2 rfl⟩

/-- C10 amended: in every state reachable by construction, `openPage` with
an index inside the document's page range, text placement and `closePage`,
the fields `_current_page`, `page_object` and `_page_instructions` are
either all `None` or all non-`None`, and the open-check of `_open_page`
(on `_current_page`) agrees with the open-check of `_assert_page_is_open`
(on `page_object`). -/
theorem C10_invariant_for_inrange_sequences (doc : PDFDocument)
    (f : PDFFactory) (h : SafeReachable doc f) :
    Coherent f ∧ (f.current_page ≠ none ↔ f.page_object ≠ none) := by
  have hc : Coherent f := by
    induction h with
    | init => exact coherent_closedFactory doc
    | step hr hs ih => exact safeStep_coherent ih hs
  refine ⟨hc, ?_⟩
  rcases hc with ⟨h1, h2, _⟩ | ⟨h1, h2, _⟩ <;> simp [h1, h2]

/-- The coherent state reached by opening page 0 of the one-page document. -/
def c10Good : PDFFactory := ((closedFactory c6Doc).open_page 0).snd

theorem C10_invariant_for_inrange_sequences_witness :
    Coherent c10Good ∧ (c10Good.current_page ≠ none ↔ c10Good.page_object ≠ none) :=
  C10_invariant_for_inrange_sequences c6Doc c10Good
    (SafeReachable.step SafeReachable.init (SafeStep.open_page _ 0 (by decide)))

end PDFQuickText
